import Mathlib

set_option maxRecDepth 8000

/-!
# Verification of the TikTok-Analytics-Telegram-Bot against its specification

Shallow embedding of `src/index.js` (the English variant; `src/unnamed/part_000`
is the same program with Italian message strings and is not separately modelled
where the logic is identical).

Strings are modelled as `List Char`.  JavaScript dynamic values reaching the
formatting helpers are modelled by `JVal` (null/undefined, string, number);
numbers are modelled as exact scaled decimals `mant / 10^exp`, which covers
every value the claims exercise (JS float printing of non-decimal values is
not needed by any claim).
-/

namespace TikTokBot

/-- JS number modelled as an exact scaled decimal: the value is
`mant / 10 ^ exp`.  Assumed normalized (`exp = 0` or `mant` not divisible
by 10), matching the canonical JS string form of such numbers. -/
structure JsNum where
  mant : Int
  exp : Nat
  deriving DecidableEq

/-- A JavaScript dynamic value as it reaches the helpers of `index.js`:
`jnull` stands for both `null` and `undefined` (the code only ever tests
`=== null || === undefined` on them together). -/
inductive JVal where
  | jnull
  | jstr (s : List Char)
  | jnum (n : JsNum)
  deriving DecidableEq

/-- Decimal digits of a natural number, e.g. `natToChars 100 = "100"`. -/
def natToChars (n : Nat) : List Char :=
  Nat.toDigits 10 n

/-- JS `String()` of an integer. -/
def intToChars (i : Int) : List Char :=
  if i < 0 then '-' :: natToChars i.natAbs else natToChars i.natAbs

/-- JS `String()` of a `JsNum` (decimal point inserted for `exp > 0`). -/
def jsNumToChars (n : JsNum) : List Char :=
  if n.exp = 0 then intToChars n.mant
  else
    let ds := natToChars n.mant.natAbs
    let ds := if ds.length ≤ n.exp then List.replicate (n.exp + 1 - ds.length) '0' ++ ds else ds
    (if n.mant < 0 then ['-'] else []) ++
      ds.take (ds.length - n.exp) ++ ['.'] ++ ds.drop (ds.length - n.exp)

/-- `Number.prototype.toFixed(1)`: one decimal digit, ties rounded away
from zero (the claims only evaluate this at exact decimals, where this
agrees with JS). -/
def toFixed1 (n : JsNum) : List Char :=
  let a := (2 * (n.mant.natAbs * 10) + 10 ^ n.exp) / (2 * 10 ^ n.exp)
  (if n.mant < 0 ∧ a ≠ 0 then ['-'] else []) ++
    natToChars (a / 10) ++ ['.'] ++ natToChars (a % 10)

/-- JS `String(v)` (never applied to null/undefined by the program:
`escapeHtml` short-circuits those first). -/
def jstring (v : JVal) : List Char :=
  match v with
  | .jnull => ('n' :: 'u' :: 'l' :: 'l' :: [])
  | .jstr s => s
  | .jnum n => jsNumToChars n

/-- JS truthiness of the modelled values: null/undefined and `''` and `0`
are falsy, everything else truthy. -/
def jtruthy (v : JVal) : Bool :=
  match v with
  | .jnull => false
  | .jstr s => !s.isEmpty
  | .jnum n => n.mant ≠ 0

/-- JS `x ?? d` where `x : Option JVal` models a possibly absent
(`undefined`) property: nullish values fall through to `d`. -/
def jnn (x : Option JVal) (d : JVal) : JVal :=
  match x with
  | none => d
  | some .jnull => d
  | some v => v

/-- JS `x || d` on a possibly absent property: falsy values fall through. -/
def jorv (x : Option JVal) (d : JVal) : JVal :=
  match x with
  | none => d
  | some v => if jtruthy v then v else d

/-- One pass of `String.prototype.replace` with a global single-character
pattern: every occurrence of `c` is replaced by `r`, left to right, and the
replacement text is not rescanned. -/
def replaceChar (s : List Char) (c : Char) (r : List Char) : List Char :=
  s.flatMap (fun x => if x = c then r else [x])

/-- `escapeHtml` from `src/index.js` lines 22-28: null/undefined give the
empty string; otherwise `&` is replaced first, then `<`, then `>`. -/
def escapeHtml (text : JVal) : List Char :=
  match text with
  | .jnull => []
  | t =>
      replaceChar
        (replaceChar
          (replaceChar (jstring t) '&' ("&amp;".toList))
          '<' ("&lt;".toList))
        '>' ("&gt;".toList)

lemma mem_replaceChar {x : Char} {s : List Char} {c : Char} {r : List Char}
    (h : x ∈ replaceChar s c r) : x ∈ r ∨ (x ∈ s ∧ x ≠ c) := by
  rcases List.mem_flatMap.1 h with ⟨a, ha, hx⟩
  by_cases hac : a = c
  · subst hac
    simp only [if_pos rfl] at hx
    exact Or.inl hx
  · simp only [if_neg hac] at hx
    rcases List.mem_singleton.1 hx with rfl
    exact Or.inr ⟨ha, hac⟩

lemma escapeHtml_not_mem_lt (t : JVal) : '<' ∉ escapeHtml t := by
  intro h
  cases t with
  | jnull => simp [escapeHtml] at h
  | jstr s =>
      rcases mem_replaceChar h with h1 | ⟨h1, _⟩
      · revert h1; decide
      rcases mem_replaceChar h1 with h2 | ⟨_, h2⟩
      · revert h2; decide
      · exact h2 rfl
  | jnum n =>
      rcases mem_replaceChar h with h1 | ⟨h1, _⟩
      · revert h1; decide
      rcases mem_replaceChar h1 with h2 | ⟨_, h2⟩
      · revert h2; decide
      · exact h2 rfl

lemma escapeHtml_not_mem_gt (t : JVal) : '>' ∉ escapeHtml t := by
  intro h
  cases t with
  | jnull => simp [escapeHtml] at h
  | jstr s =>
      rcases mem_replaceChar h with h1 | ⟨_, h1⟩
      · revert h1; decide
      · exact h1 rfl
  | jnum n =>
      rcases mem_replaceChar h with h1 | ⟨_, h1⟩
      · revert h1; decide
      · exact h1 rfl

/-- C3: the escape function replaces `&` first, then `<`, then `>`; on
`"<a & b>"` it yields exactly `"&lt;a &amp; b&gt;"`, each character escaped
once, and null/absent input escapes to the empty string. -/
theorem escapeHtml_order_and_null :
    escapeHtml (.jstr ("<a & b>".toList)) = ("&lt;a &amp; b&gt;".toList) ∧
    escapeHtml .jnull = [] ∧
    escapeHtml (.jstr ("&".toList)) = ("&amp;".toList) := by
  refine ⟨by decide, rfl, by decide⟩

/-- C10: for every input value, the escaped string contains no `<` and no
`>` character, so no dynamic field passed through `escapeHtml` can
introduce an HTML tag. -/
theorem escapeHtml_no_angle (t : JVal) :
    (escapeHtml t).count '<' = 0 ∧ (escapeHtml t).count '>' = 0 := by
  constructor
  · exact List.count_eq_zero.2 (escapeHtml_not_mem_lt t)
  · exact List.count_eq_zero.2 (escapeHtml_not_mem_gt t)

/-- Concrete instantiation of `escapeHtml_no_angle`. -/
theorem escapeHtml_no_angle_witness :
    (escapeHtml (.jstr ("<script>alert(1)</script>".toList))).count '<' = 0 ∧
    (escapeHtml (.jstr ("<script>alert(1)</script>".toList))).count '>' = 0 :=
  escapeHtml_no_angle (.jstr ("<script>alert(1)</script>".toList))

/-! ## Raw analytics data model (the fields `formatReportMessage` reads) -/

/-- Shape of `data.profile_followers` (and `data.video_views.value`). -/
structure FollowersO where
  value : Option JVal
  deriving DecidableEq

/-- Shape of `data.engagement_rate`. -/
structure EngO where
  float_2f : Option JVal
  deriving DecidableEq

/-- Shape of `data.video_views`. -/
structure ViewsO where
  abbr_string_1f : Option JVal
  value : Option JVal
  deriving DecidableEq

/-- Shape of `data.average_video_views_per_post` and `data.likes`. -/
structure AvgO where
  float_1f : Option JVal
  deriving DecidableEq

/-- One element of `data.top_posts`.  `none` models an absent
(`undefined`) property. -/
structure RawPost where
  like_count : Option JVal
  diggCount : Option JVal
  si_permalink : Option JVal
  permalink : Option JVal
  si_picture : Option JVal
  deriving DecidableEq

/-- The analytics response object as consumed by `formatReportMessage`.
An outer `none` models an absent or null sub-object (so that the source's
`?.` chains yield `undefined`); `top_posts = none` models an absent or
non-array value (the source guards with `Array.isArray`). -/
structure RawAnalytics where
  profile_name : Option JVal
  profile_id : Option JVal
  profile_followers : Option FollowersO
  engagement_rate : Option EngO
  video_views : Option ViewsO
  average_video_views_per_post : Option AvgO
  likes : Option AvgO
  posts : Option JVal
  top_posts : Option (List RawPost)
  deriving DecidableEq

/-- `avgViews.toFixed ? avgViews.toFixed(1) : avgViews`: only numbers have
a `toFixed` method, so numbers are rendered with one decimal and any other
value is used as-is. -/
def toFixedSel (v : JVal) : JVal :=
  match v with
  | .jnum n => .jstr (toFixed1 n)
  | v => v

/-- The body of `top.forEach((p, idx) => ...)` in lines 133-141: the
1-indexed like line, followed by the link line only when the link chain
produced a truthy value. -/
def renderPost (idx : Nat) (p : RawPost) : List Char :=
  let likes := jnn p.like_count (jnn p.diggCount (.jnum ⟨0, 0⟩))
  let likesEsc := escapeHtml likes
  let link := jorv p.si_permalink (jorv p.permalink (jorv p.si_picture (.jstr [])))
  let linkEsc := escapeHtml link
  natToChars (idx + 1) ++ (") ❤️ ".toList) ++ likesEsc ++ (" likes\n".toList) ++
    (if jtruthy link then linkEsc ++ ['\n'] else [])

/-- `top.forEach` over the sliced list, accumulating into the message. -/
def renderPosts (l : List RawPost) : List Char :=
  (l.enum.map (fun ip => renderPost ip.1 ip.2)).flatten

/-- Lines 130-142: the Top Videos section, appended only when `top_posts`
is an array with positive length; only `slice(0, 3)` is rendered. -/
def topSection (tp : Option (List RawPost)) : List Char :=
  match tp with
  | none => []
  | some l =>
      if 0 < l.length then ("\n🏆 <b>Top Videos</b>\n".toList) ++ renderPosts (l.take 3)
      else []

/-- Lines 101-128 of `formatReportMessage`: everything before the Top
Videos section (it reads every field except `top_posts`). -/
def reportBase (data : RawAnalytics) : List Char :=
  let profileName := jorv data.profile_name (jorv data.profile_id (.jstr ("Profile".toList)))
  let handle : List Char :=
    match data.profile_id with
    | some v => if jtruthy v then '@' :: jstring v else []
    | none => []
  let followers := jnn (data.profile_followers.bind FollowersO.value) (.jnum ⟨0, 0⟩)
  let er := jnn (data.engagement_rate.bind EngO.float_2f) (.jnum ⟨0, 0⟩)
  let totalViews :=
    jnn (data.video_views.bind ViewsO.abbr_string_1f)
      (jnn (data.video_views.bind ViewsO.value) (.jnum ⟨0, 0⟩))
  let avgViews := jnn (data.average_video_views_per_post.bind AvgO.float_1f) (.jnum ⟨0, 0⟩)
  let avgLikes := jnn (data.likes.bind AvgO.float_1f) (.jnum ⟨0, 0⟩)
  let posts := jnn data.posts (.jnum ⟨0, 0⟩)
  let profileNameEsc := escapeHtml profileName
  let handleEsc := escapeHtml (.jstr handle)
  let totalViewsEsc := escapeHtml totalViews
  let followersEsc := escapeHtml followers
  let erEsc := escapeHtml er
  let postsEsc := escapeHtml posts
  let avgViewsEsc := escapeHtml (toFixedSel avgViews)
  let avgLikesEsc := escapeHtml (toFixedSel avgLikes)
  ("📊 <b>TikTok Report</b>\n👤 Profile: <b>".toList) ++ profileNameEsc ++
    ("</b> ".toList) ++ handleEsc ++
    ("\n\n👥 Followers: <b>".toList) ++ followersEsc ++
    ("</b>\n🔥 Engagement rate: <b>".toList) ++ erEsc ++
    ("%</b>\n🎬 Posts analyzed: <b>".toList) ++ postsEsc ++
    ("</b>\n\n👁️‍🗨️ Total views: <b>".toList) ++ totalViewsEsc ++
    ("</b>\n📈 Avg views/video: <b>".toList) ++ avgViewsEsc ++
    ("</b>\n❤️ Avg likes/video: <b>".toList) ++ avgLikesEsc ++ ("</b>\n".toList)

/-- `formatReportMessage` from `src/index.js` lines 101-145. -/
def formatReportMessage (data : RawAnalytics) : List Char :=
  reportBase data ++ topSection data.top_posts

/-- Boolean substring containment on our `List Char` strings. -/
def isInfixB (pat hay : List Char) : Bool :=
  decide (pat <:+: hay)

/-- The concrete input of C4:
`{profile_id:"foo", profile_followers:{value:100}, engagement_rate:{float_2f:2.5}, posts:5}`. -/
def dataC4 : RawAnalytics :=
  { profile_name := none
    profile_id := some (.jstr ("foo".toList))
    profile_followers := some ⟨some (.jnum ⟨100, 0⟩)⟩
    engagement_rate := some ⟨some (.jnum ⟨25, 1⟩)⟩
    video_views := none
    average_video_views_per_post := none
    likes := none
    posts := some (.jnum ⟨5, 0⟩)
    top_posts := none }

/-- C4 counterexample: on the claim's input the average-views and
average-likes lines do **not** render the default as "0" — the default `0`
is a number, so `toFixed(1)` applies and they render "0.0". -/
theorem format_c4_counterexample :
    isInfixB ("📈 Avg views/video: <b>0</b>\n".toList) (formatReportMessage dataC4) = false ∧
    isInfixB ("❤️ Avg likes/video: <b>0</b>\n".toList) (formatReportMessage dataC4) = false ∧
    isInfixB ("📈 Avg views/video: <b>0.0</b>\n".toList) (formatReportMessage dataC4) = true := by
  refine ⟨by decide, by decide, by decide⟩

/-- C4 as amended: `format` on the claim's input embeds "foo", "100",
"2.5%" and "5", renders total views as the default "0", and renders
average views per video and average likes per video as "0.0" (the default
`0` passed through `toFixed(1)`). -/
theorem format_c4_fields :
    formatReportMessage dataC4 =
      ("📊 <b>TikTok Report</b>\n👤 Profile: <b>foo</b> @foo\n\n👥 Followers: <b>100</b>\n🔥 Engagement rate: <b>2.5%</b>\n🎬 Posts analyzed: <b>5</b>\n\n👁️‍🗨️ Total views: <b>0</b>\n📈 Avg views/video: <b>0.0</b>\n❤️ Avg likes/video: <b>0.0</b>\n".toList) ∧
    isInfixB ("foo".toList) (formatReportMessage dataC4) = true ∧
    isInfixB ("100".toList) (formatReportMessage dataC4) = true ∧
    isInfixB ("2.5%".toList) (formatReportMessage dataC4) = true ∧
    isInfixB ("<b>5</b>".toList) (formatReportMessage dataC4) = true ∧
    isInfixB ("Total views: <b>0</b>".toList) (formatReportMessage dataC4) = true := by
  refine ⟨by decide, by decide, by decide, by decide, by decide, by decide⟩

/-- The 5-element `top_posts` input of C5, exercising both like-count
fields (`like_count`, then `diggCount`, else 0) and the link chain
(`si_permalink || permalink || si_picture || ''`). -/
def postsC5 : List RawPost :=
  [ { like_count := some (.jnum ⟨7, 0⟩), diggCount := none,
      si_permalink := none, permalink := some (.jstr ("https://a".toList)), si_picture := none },
    { like_count := none, diggCount := some (.jnum ⟨9, 0⟩),
      si_permalink := none, permalink := none, si_picture := none },
    { like_count := some .jnull, diggCount := some .jnull,
      si_permalink := none, permalink := none, si_picture := some (.jstr ("https://pic".toList)) },
    { like_count := some (.jnum ⟨444, 0⟩), diggCount := none,
      si_permalink := some (.jstr ("https://should-not-appear".toList)), permalink := none,
      si_picture := none },
    { like_count := some (.jnum ⟨555, 0⟩), diggCount := none,
      si_permalink := none, permalink := none, si_picture := none } ]

/-- An analytics object whose `top_posts` has 5 entries. -/
def dataC5 : RawAnalytics :=
  { profile_name := none, profile_id := none, profile_followers := none,
    engagement_rate := none, video_views := none,
    average_video_views_per_post := none, likes := none, posts := none,
    top_posts := some postsC5 }

lemma topSection_take3 (l : List RawPost) :
    topSection (some l) = topSection (some (l.take 3)) := by
  simp only [topSection, List.take_take, List.length_take]
  by_cases h : 0 < l.length
  · rw [if_pos h, if_pos (by omega), min_self]
  · rw [if_neg h, if_neg (by omega)]

/-- C5: (1) the rendered report depends on `top_posts` only through its
first 3 elements; (2) on the concrete 5-entry list the report renders
exactly the three lines numbered 1-3 in input order, with the like count
taken as `like_count ?? diggCount ?? 0` and the link as
`si_permalink || permalink || si_picture || ''`, the link line appearing
only when a link exists; entries 4 and 5 are not rendered. -/
theorem format_top_posts_first3 :
    (∀ (data : RawAnalytics) (l : List RawPost), data.top_posts = some l →
      formatReportMessage data =
        formatReportMessage { data with top_posts := some (l.take 3) }) ∧
    formatReportMessage dataC5 =
      ("📊 <b>TikTok Report</b>\n👤 Profile: <b>Profile</b> \n\n👥 Followers: <b>0</b>\n🔥 Engagement rate: <b>0%</b>\n🎬 Posts analyzed: <b>0</b>\n\n👁️‍🗨️ Total views: <b>0</b>\n📈 Avg views/video: <b>0.0</b>\n❤️ Avg likes/video: <b>0.0</b>\n\n🏆 <b>Top Videos</b>\n1) ❤️ 7 likes\nhttps://a\n2) ❤️ 9 likes\n3) ❤️ 0 likes\nhttps://pic\n".toList) ∧
    isInfixB ("4)".toList) (formatReportMessage dataC5) = false ∧
    isInfixB ("should-not-appear".toList) (formatReportMessage dataC5) = false := by
  refine ⟨?_, by decide, by decide, by decide⟩
  intro data l h
  have hb : reportBase { data with top_posts := some (l.take 3) } = reportBase data := rfl
  simp only [formatReportMessage, hb, h]
  exact congrArg (reportBase data ++ ·) (topSection_take3 l)

/-- Instantiation of the universal part of `format_top_posts_first3` at the
concrete 5-entry input. -/
theorem format_top_posts_first3_witness :
    formatReportMessage dataC5 =
      formatReportMessage { dataC5 with top_posts := some (postsC5.take 3) } :=
  format_top_posts_first3.1 dataC5 postsC5 rfl

/-! ## Subscription store

The in-memory store `subscriptions` is a JS object mapping chat-id strings
to records; we model it as an ordered association list.  (JS additionally
reorders integer-like keys numerically during iteration; no claim depends
on iteration order, so the list order stands in for whatever stable order
the runtime provides.) -/

/-- One subscription record: `{ tiktokHandle, lastSentAt }`. -/
structure SubRec where
  tiktokHandle : List Char
  lastSentAt : Option (List Char)
  deriving DecidableEq

/-- The in-memory subscription mapping. -/
abbrev Subs := List (List Char × SubRec)

/-- The durable file `./subscriptions.json`, modelled from the platform
JSON builtins: `stored subs` stands for the exact text
`JSON.stringify(subs, null, 2)` (which `JSON.parse` round-trips back to
`subs`, as the JSON builtins guarantee for plain data); `malformed raw`
stands for content that `JSON.parse` rejects, or the empty file (both make
`loadSubscriptions` return the empty mapping without rewriting the file);
`absent` means the file does not exist. -/
inductive FileState where
  | absent
  | stored (subs : Subs)
  | malformed (raw : List Char)
  deriving DecidableEq

/-- JS property read `subs[k]`. -/
def objGet : Subs → List Char → Option SubRec
  | [], _ => none
  | kv :: rest, k => if kv.1 = k then some kv.2 else objGet rest k

/-- JS property write `subs[k] = v`: updates the existing key in place,
else appends a new key. -/
def objSet (subs : Subs) (k : List Char) (v : SubRec) : Subs :=
  if (objGet subs k).isSome then
    subs.map (fun kv => if kv.1 = k then (k, v) else kv)
  else subs ++ [(k, v)]

/-- JS `delete subs[k]`. -/
def objDelete (subs : Subs) (k : List Char) : Subs :=
  subs.filter (fun kv => decide (kv.1 ≠ k))

/-- `subscriptions[chatId].lastSentAt = now` on a present record
(line 159); only applied under a presence check in the model, since on an
absent record the source throws instead (see `sendReportToChat`). -/
def markSent (subs : Subs) (k now : List Char) : Subs :=
  subs.map (fun kv => if kv.1 = k then (kv.1, { kv.2 with lastSentAt := some now }) else kv)

/-- `loadSubscriptions` (lines 34-46): creates the file as `{}` if absent;
parses it otherwise; on unreadable or malformed content logs and returns
the empty mapping without touching the file.  Returns the loaded mapping
together with the resulting file state. -/
def loadSubscriptions : FileState → Subs × FileState
  | .absent => ([], .stored [])
  | .stored s => (s, .stored s)
  | .malformed raw => ([], .malformed raw)

/-- `isAdmin` (lines 62-65): open mode when no admin id is configured
(`BOT_ADMIN_ID` unset or empty, both falsy, are modelled as `none`),
otherwise string equality of the caller id with the configured id. -/
def isAdmin (adminId : Option (List Char)) (fromId : List Char) : Bool :=
  match adminId with
  | none => true
  | some a => fromId = a

/-- Result of one command handler: the reply sent back to `msg.chat.id`
(`none` when the handler returns without replying), and the store and file
after the handler. -/
structure HandlerResult where
  reply : Option (List Char)
  subs : Subs
  file : FileState
  deriving DecidableEq

/-- The `/start` reply (lines 196-201). -/
def helpText : List Char :=
  ("Hello! I am the TikTok report bot.\nAvailable commands (admin only):\n/add &lt;tiktok_link&gt; &lt;chat_id&gt;\n/rem &lt;chat_id&gt;\n/list".toList)

/-- `/start` handler (lines 195-204): no authorization check. -/
def startHandler (subs : Subs) (file : FileState) : HandlerResult :=
  ⟨some helpText, subs, file⟩

/-- `/add` handler (lines 207-227).  `chatIdArg` is the optional second
regex group; `msgChatId` is `String(msg.chat.id)`. -/
def addHandler (adminId : Option (List Char)) (fromId msgChatId tiktokLink : List Char)
    (chatIdArg : Option (List Char)) (subs : Subs) (file : FileState) : HandlerResult :=
  if !(isAdmin adminId fromId) then ⟨none, subs, file⟩
  else
    let chatIdToUse := match chatIdArg with | some c => c | none => msgChatId
    let subs1 := objSet subs chatIdToUse ⟨tiktokLink, none⟩
    ⟨some (("✅ Added report for chat <b>".toList) ++ escapeHtml (.jstr chatIdToUse) ++
        ("</b> on profile:\n".toList) ++ escapeHtml (.jstr tiktokLink)),
      subs1, .stored subs1⟩

/-- `/rem` handler (lines 230-249). -/
def remHandler (adminId : Option (List Char)) (fromId chatIdToRemove : List Char)
    (subs : Subs) (file : FileState) : HandlerResult :=
  if !(isAdmin adminId fromId) then ⟨none, subs, file⟩
  else if (objGet subs chatIdToRemove).isSome then
    let subs1 := objDelete subs chatIdToRemove
    ⟨some (("🗑️ Removed chat <b>".toList) ++ escapeHtml (.jstr chatIdToRemove) ++
        ("</b> from reports.".toList)), subs1, .stored subs1⟩
  else
    ⟨some (("❓ Chat <b>".toList) ++ escapeHtml (.jstr chatIdToRemove) ++
        ("</b> not found.".toList)), subs, file⟩

/-- One bullet of the `/list` reply (lines 263-271). -/
def listEntryText (kv : List Char × SubRec) : List Char :=
  ("• Chat ID: <b>".toList) ++ escapeHtml (.jstr kv.1) ++ ("</b>\n  TikTok: ".toList) ++
    escapeHtml (.jstr kv.2.tiktokHandle) ++ ("\n  Last sent: ".toList) ++
    (match kv.2.lastSentAt with
     | some t => if t.isEmpty then ("never".toList) else escapeHtml (.jstr t)
     | none => ("never".toList)) ++ ("\n\n".toList)

/-- `/list` handler (lines 252-274). -/
def listHandler (adminId : Option (List Char)) (fromId : List Char)
    (subs : Subs) (file : FileState) : HandlerResult :=
  if !(isAdmin adminId fromId) then ⟨none, subs, file⟩
  else if subs.isEmpty then ⟨some ("📭 No chat configured.".toList), subs, file⟩
  else
    ⟨some (("📋 <b>Configured chats</b>\n\n".toList) ++ (subs.map listEntryText).flatten),
      subs, file⟩

lemma objGet_cons (kv : List Char × SubRec) (rest : Subs) (k : List Char) :
    objGet (kv :: rest) k = if kv.1 = k then some kv.2 else objGet rest k := rfl

lemma markSent_cons (kv : List Char × SubRec) (rest : Subs) (k now : List Char) :
    markSent (kv :: rest) k now =
      (if kv.1 = k then (kv.1, { kv.2 with lastSentAt := some now }) else kv) ::
        markSent rest k now := rfl

lemma objGet_map_set {subs : Subs} {k : List Char} (v : SubRec)
    (h : (objGet subs k).isSome) :
    objGet (subs.map (fun kv => if kv.1 = k then (k, v) else kv)) k = some v := by
  induction subs with
  | nil => simp [objGet] at h
  | cons kv rest ih =>
      rw [objGet_cons] at h
      by_cases hk : kv.1 = k
      · rw [List.map_cons, if_pos hk]
        simp [objGet_cons]
      · rw [if_neg hk] at h
        rw [List.map_cons, if_neg hk, objGet_cons, if_neg hk]
        exact ih h

lemma objGet_append_self {subs : Subs} {k : List Char} (v : SubRec)
    (h : objGet subs k = none) :
    objGet (subs ++ [(k, v)]) k = some v := by
  induction subs with
  | nil => simp [objGet_cons]
  | cons kv rest ih =>
      rw [objGet_cons] at h
      by_cases hk : kv.1 = k
      · rw [if_pos hk] at h
        exact absurd h (by simp)
      · rw [if_neg hk] at h
        rw [List.cons_append, objGet_cons, if_neg hk]
        exact ih h

lemma objGet_objSet_self (subs : Subs) (k : List Char) (v : SubRec) :
    objGet (objSet subs k v) k = some v := by
  by_cases h : (objGet subs k).isSome
  · simp only [objSet, h, if_true]
    exact objGet_map_set v h
  · simp only [objSet, h, if_false]
    exact objGet_append_self v (Option.not_isSome_iff_eq_none.1 (by simpa using h))

lemma objGet_objDelete_self (subs : Subs) (k : List Char) :
    objGet (objDelete subs k) k = none := by
  induction subs with
  | nil => rfl
  | cons kv rest ih =>
      by_cases hk : kv.1 = k
      · have hstep : objDelete (kv :: rest) k = objDelete rest k := by
          simp [objDelete, List.filter_cons, hk]
        rw [hstep]
        exact ih
      · have hstep : objDelete (kv :: rest) k = kv :: objDelete rest k := by
          simp [objDelete, List.filter_cons, hk]
        rw [hstep, objGet_cons, if_neg hk]
        exact ih

lemma objGet_markSent_ne {k' k : List Char} (subs : Subs) (now : List Char)
    (h : k' ≠ k) :
    objGet (markSent subs k now) k' = objGet subs k' := by
  induction subs with
  | nil => rfl
  | cons kv rest ih =>
      rw [markSent_cons]
      by_cases hk : kv.1 = k
      · have hne : ((kv.1, { kv.2 with lastSentAt := some now }) : List Char × SubRec).1 ≠ k' := by
          intro hx
          exact h (by rw [← hx]; exact hk)
        rw [if_pos hk, objGet_cons, if_neg hne, objGet_cons,
          if_neg (by simpa using hne)]
        exact ih
      · rw [if_neg hk, objGet_cons, objGet_cons]
        by_cases hk' : kv.1 = k'
        · rw [if_pos hk', if_pos hk']
        · rw [if_neg hk', if_neg hk']
          exact ih

/-- C6: an authorized `/add` for any chat id overwrites whatever record
existed (resetting `lastSentAt` to null), persists synchronously, and a
subsequent `loadSubscriptions` (a restart) yields a store whose record for
that chat id is exactly `{ tiktokHandle := handle, lastSentAt := null }`. -/
theorem upsert_then_load (adminId : Option (List Char))
    (fromId msgChatId link chatId : List Char) (subs : Subs) (file : FileState)
    (hA : isAdmin adminId fromId = true) :
    objGet (loadSubscriptions
        (addHandler adminId fromId msgChatId link (some chatId) subs file).file).1 chatId
      = some ⟨link, none⟩ := by
  simp only [addHandler, hA, Bool.not_true, Bool.false_eq_true, if_false, loadSubscriptions]
  exact objGet_objSet_self subs chatId ⟨link, none⟩

/-- Instantiation of `upsert_then_load` where the chat previously had a
record with a non-null `lastSentAt`: the reloaded record still has
`lastSentAt = null`. -/
theorem upsert_then_load_witness :
    objGet (loadSubscriptions
        (addHandler none ("9".toList) ("9".toList) ("@user".toList) (some ("123".toList))
          [(("123".toList), ⟨("@old".toList), some ("2024-01-01T00:00:00.000Z".toList)⟩)]
          (.stored [(("123".toList), ⟨("@old".toList), some ("2024-01-01T00:00:00.000Z".toList)⟩)])).file).1
        ("123".toList)
      = some ⟨("@user".toList), none⟩ :=
  upsert_then_load none ("9".toList) ("9".toList) ("@user".toList) ("123".toList)
    [(("123".toList), ⟨("@old".toList), some ("2024-01-01T00:00:00.000Z".toList)⟩)]
    (.stored [(("123".toList), ⟨("@old".toList), some ("2024-01-01T00:00:00.000Z".toList)⟩)])
    rfl

/-- C7: an authorized `/rem` for an absent chat id replies with the
not-found message, leaves the in-memory mapping untouched and performs no
write at all to the durable file (so its bytes are unchanged); the
not-found reply is distinct from every found ("Removed") reply. -/
theorem remove_not_found (adminId : Option (List Char)) (fromId chatId : List Char)
    (subs : Subs) (file : FileState) (hA : isAdmin adminId fromId = true)
    (h : objGet subs chatId = none) :
    remHandler adminId fromId chatId subs file =
      ⟨some (("❓ Chat <b>".toList) ++ escapeHtml (.jstr chatId) ++ ("</b> not found.".toList)),
        subs, file⟩ ∧
    ∀ c c' : List Char,
      ("❓ Chat <b>".toList) ++ escapeHtml (.jstr c) ++ ("</b> not found.".toList) ≠
        ("🗑️ Removed chat <b>".toList) ++ escapeHtml (.jstr c') ++ ("</b> from reports.".toList) := by
  constructor
  · simp [remHandler, hA, h]
  · intro c c' hEq
    have h1 : (("❓ Chat <b>".toList) ++ escapeHtml (.jstr c) ++
        ("</b> not found.".toList)).head? = some '❓' := rfl
    have h2 : (("🗑️ Removed chat <b>".toList) ++ escapeHtml (.jstr c') ++
        ("</b> from reports.".toList)).head? = some '🗑' := rfl
    rw [hEq, h2] at h1
    exact absurd h1 (by decide)

/-- Instantiation of `remove_not_found` at a concrete store and chat id. -/
theorem remove_not_found_witness :
    remHandler none ("9".toList) ("2".toList)
        [(("1".toList), ⟨("@a".toList), none⟩)] (.stored [(("1".toList), ⟨("@a".toList), none⟩)]) =
      ⟨some (("❓ Chat <b>".toList) ++ escapeHtml (.jstr ("2".toList)) ++ ("</b> not found.".toList)),
        [(("1".toList), ⟨("@a".toList), none⟩)], .stored [(("1".toList), ⟨("@a".toList), none⟩)]⟩ ∧
    ("❓ Chat <b>".toList) ++ escapeHtml (.jstr ("2".toList)) ++ ("</b> not found.".toList) ≠
      ("🗑️ Removed chat <b>".toList) ++ escapeHtml (.jstr ("2".toList)) ++ ("</b> from reports.".toList) :=
  ⟨(remove_not_found none ("9".toList) ("2".toList) _ _ rfl (by decide)).1,
   (remove_not_found none ("9".toList) ("2".toList)
      [(("1".toList), ⟨("@a".toList), none⟩)] (.stored [(("1".toList), ⟨("@a".toList), none⟩)])
      rfl (by decide)).2 ("2".toList) ("2".toList)⟩

/-- C9: with no configured admin identity every caller is admin; with one
configured, `add`/`rem`/`list` from any other identity reply nothing and
leave store and file untouched, while `/start` always replies with the
static help text. -/
theorem admin_authorization (adminId : Option (List Char))
    (a fromId msgChatId link cid : List Char) (chatIdArg : Option (List Char))
    (subs : Subs) (file : FileState) :
    (adminId = none → isAdmin adminId fromId = true) ∧
    (adminId = some a → fromId ≠ a →
      addHandler adminId fromId msgChatId link chatIdArg subs file = ⟨none, subs, file⟩ ∧
      remHandler adminId fromId cid subs file = ⟨none, subs, file⟩ ∧
      listHandler adminId fromId subs file = ⟨none, subs, file⟩) ∧
    (startHandler subs file).reply = some helpText := by
  refine ⟨fun h => by rw [h]; rfl, fun h hne => ?_, rfl⟩
  subst h
  have hA : isAdmin (some a) fromId = false := by
    simp [isAdmin, hne]
  refine ⟨?_, ?_, ?_⟩
  · simp [addHandler, hA]
  · simp [remHandler, hA]
  · simp [listHandler, hA]

/-- Instantiation of `admin_authorization`: open mode admits anyone;
configured mode silently ignores a non-admin `add`/`rem`/`list`; `/start`
replies to anyone. -/
theorem admin_authorization_witness :
    isAdmin none ("2".toList) = true ∧
    (addHandler (some ("1".toList)) ("2".toList) ("2".toList) ("@x".toList) none
        [] FileState.absent = ⟨none, [], FileState.absent⟩ ∧
      remHandler (some ("1".toList)) ("2".toList) ("5".toList) [] FileState.absent =
        ⟨none, [], FileState.absent⟩ ∧
      listHandler (some ("1".toList)) ("2".toList) [] FileState.absent =
        ⟨none, [], FileState.absent⟩) ∧
    (startHandler [] FileState.absent).reply = some helpText :=
  ⟨(admin_authorization none ("1".toList) ("2".toList) ("2".toList) ("@x".toList) ("5".toList)
      none [] FileState.absent).1 rfl,
   (admin_authorization (some ("1".toList)) ("1".toList) ("2".toList) ("2".toList) ("@x".toList)
      ("5".toList) none [] FileState.absent).2.1 rfl (by decide),
   (admin_authorization (some ("1".toList)) ("1".toList) ("2".toList) ("2".toList) ("@x".toList)
      ("5".toList) none [] FileState.absent).2.2⟩

/-! ## Delivery cycle

`sendReportToChat` (lines 151-168) and `runSchedulerCycle` (lines 176-186).
The outcome of the external effects of one entry (the analytics fetch and
the Telegram send) is supplied by a `SendEnv`; both are `await`ed, so a
concurrently handled admin `/rem` can land at those suspension points
(spec §5) — `remDuringSend` models such a removal resuming before
`markSent` runs.  The `try`/`catch` of lines 152-167 is modelled by the
branches of `sendReportToChat`: a failed fetch, a rejected send, and the
`TypeError` thrown by `subscriptions[chatId].lastSentAt = ...` on a
removed record are all caught there, logged, and answered with the
best-effort fixed fallback notice, so the function is total and no error
escapes the entry.  The trace records every send attempt; the `delivered`
flag of the fallback event does not influence anything (the source
attaches `.catch(() => {})`). -/

/-- Result of `fetchTikTokAnalytics` for one entry: parsed response data,
or a `FetchError` (network failure / rejected promise). -/
inductive FetchOutcome where
  | ok (data : RawAnalytics)
  | err
  deriving DecidableEq

/-- External outcomes for one delivery-cycle entry. -/
structure SendEnv where
  fetch : FetchOutcome
  sendOk : Bool
  fallbackOk : Bool
  remDuringSend : Option (List Char)
  deriving DecidableEq

/-- One Telegram send attempt observed during a cycle. -/
inductive TraceEvt where
  | report (chatId : List Char) (text : List Char) (delivered : Bool)
  | fallback (chatId : List Char) (text : List Char) (delivered : Bool)
  deriving DecidableEq

/-- The chat a trace event was addressed to. -/
def chatOf : TraceEvt → List Char
  | .report c _ _ => c
  | .fallback c _ _ => c

/-- The fixed fallback notice of lines 163-166. -/
def fallbackText : List Char :=
  ("⚠️ Error fetching TikTok data. I will try again on the next cycle.".toList)

/-- The shared state as seen when control resumes at line 159 (after the
`await`s): unchanged, or with a concurrently handled admin `/rem` applied. -/
def midState (st : Subs × FileState) (rd : Option (List Char)) : Subs × FileState :=
  match rd with
  | some c => ((remHandler none c c st.1 st.2).subs, (remHandler none c c st.1 st.2).file)
  | none => st

/-- `sendReportToChat` (lines 151-168). -/
def sendReportToChat (chatId tiktokHandle : List Char) (st : Subs × FileState)
    (env : SendEnv) (now : List Char) : (Subs × FileState) × List TraceEvt :=
  match env.fetch with
  | .err => (st, [.fallback chatId fallbackText env.fallbackOk])
  | .ok data =>
      if env.sendOk then
        if (objGet (midState st env.remDuringSend).1 chatId).isSome then
          ((markSent (midState st env.remDuringSend).1 chatId now,
            .stored (markSent (midState st env.remDuringSend).1 chatId now)),
           [.report chatId (formatReportMessage data) true])
        else
          (midState st env.remDuringSend,
           [.report chatId (formatReportMessage data) true,
            .fallback chatId fallbackText env.fallbackOk])
      else
        (midState st env.remDuringSend,
         [.report chatId (formatReportMessage data) false,
          .fallback chatId fallbackText env.fallbackOk])

/-- The `for` loop of `runSchedulerCycle` (lines 180-185) over the snapshot
of `Object.entries(subscriptions)`, threading the shared state and
collecting the send attempts.  (The fixed 1.5 s pacing delay has no
state effect and is not modelled.) -/
def runCycleAux (envs : List Char → SendEnv) (now : List Char) :
    List (List Char × SubRec) → (Subs × FileState) → (Subs × FileState) × List TraceEvt
  | [], st => (st, [])
  | (chatId, info) :: rest, st =>
      if info.tiktokHandle.isEmpty then runCycleAux envs now rest st
      else
        ((runCycleAux envs now rest
            (sendReportToChat chatId info.tiktokHandle st (envs chatId) now).1).1,
          (sendReportToChat chatId info.tiktokHandle st (envs chatId) now).2 ++
            (runCycleAux envs now rest
              (sendReportToChat chatId info.tiktokHandle st (envs chatId) now).1).2)

/-- `runSchedulerCycle` (lines 176-186): one full pass over the snapshot
taken at cycle start. -/
def runSchedulerCycle (st : Subs × FileState) (envs : List Char → SendEnv)
    (now : List Char) : (Subs × FileState) × List TraceEvt :=
  runCycleAux envs now st.1 st

lemma sendReport_err (chatId tiktokHandle : List Char) (st : Subs × FileState)
    (env : SendEnv) (now : List Char) (hf : env.fetch = .err) :
    sendReportToChat chatId tiktokHandle st env now =
      (st, [.fallback chatId fallbackText env.fallbackOk]) := by
  simp [sendReportToChat, hf]

lemma sendReport_trace_chat (chatId tiktokHandle : List Char) (st : Subs × FileState)
    (env : SendEnv) (now : List Char) :
    ∃ e ∈ (sendReportToChat chatId tiktokHandle st env now).2, chatOf e = chatId := by
  cases hf : env.fetch with
  | err =>
      rw [sendReport_err chatId tiktokHandle st env now hf]
      exact ⟨.fallback chatId fallbackText env.fallbackOk, by simp, rfl⟩
  | ok d =>
      by_cases hs : env.sendOk
      · by_cases hm : (objGet (midState st env.remDuringSend).1 chatId).isSome
        · exact ⟨.report chatId (formatReportMessage d) true,
            by simp [sendReportToChat, hf, hs, hm], rfl⟩
        · exact ⟨.report chatId (formatReportMessage d) true,
            by simp [sendReportToChat, hf, hs, hm], rfl⟩
      · exact ⟨.report chatId (formatReportMessage d) false,
          by simp [sendReportToChat, hf, hs], rfl⟩

lemma sendReport_preserves_other (chatId tiktokHandle k : List Char)
    (st : Subs × FileState) (env : SendEnv) (now : List Char)
    (hrd : env.remDuringSend = none) (hne : k ≠ chatId) :
    objGet (sendReportToChat chatId tiktokHandle st env now).1.1 k = objGet st.1 k := by
  cases hf : env.fetch with
  | err => rw [sendReport_err chatId tiktokHandle st env now hf]
  | ok d =>
      by_cases hs : env.sendOk
      · simp only [sendReportToChat, hf, hs, hrd, midState, if_true]
        by_cases hm : (objGet st.1 chatId).isSome
        · simp only [hm, if_true]
          exact objGet_markSent_ne st.1 now hne
        · simp [hm]
      · simp [sendReportToChat, hf, hs, hrd, midState]

lemma runCycleAux_cons_skip (envs : List Char → SendEnv) (now chatId : List Char)
    (info : SubRec) (rest : List (List Char × SubRec)) (st : Subs × FileState)
    (hskip : info.tiktokHandle.isEmpty) :
    runCycleAux envs now ((chatId, info) :: rest) st = runCycleAux envs now rest st := by
  rw [runCycleAux, if_pos hskip]

lemma runCycleAux_cons_state (envs : List Char → SendEnv) (now chatId : List Char)
    (info : SubRec) (rest : List (List Char × SubRec)) (st : Subs × FileState)
    (hskip : ¬info.tiktokHandle.isEmpty) :
    (runCycleAux envs now ((chatId, info) :: rest) st).1 =
      (runCycleAux envs now rest
        (sendReportToChat chatId info.tiktokHandle st (envs chatId) now).1).1 := by
  rw [runCycleAux, if_neg hskip]

lemma runCycleAux_cons_trace (envs : List Char → SendEnv) (now chatId : List Char)
    (info : SubRec) (rest : List (List Char × SubRec)) (st : Subs × FileState)
    (hskip : ¬info.tiktokHandle.isEmpty) :
    (runCycleAux envs now ((chatId, info) :: rest) st).2 =
      (sendReportToChat chatId info.tiktokHandle st (envs chatId) now).2 ++
        (runCycleAux envs now rest
          (sendReportToChat chatId info.tiktokHandle st (envs chatId) now).1).2 := by
  rw [runCycleAux, if_neg hskip]

lemma cycle_trace_all (envs : List Char → SendEnv) (now : List Char) :
    ∀ (l : List (List Char × SubRec)) (st : Subs × FileState) (k : List Char) (r : SubRec),
      (k, r) ∈ l → ¬r.tiktokHandle.isEmpty →
      ∃ e ∈ (runCycleAux envs now l st).2, chatOf e = k := by
  intro l
  induction l with
  | nil =>
      intro st k r hmem _
      simp at hmem
  | cons kv rest ih =>
      obtain ⟨kc, ki⟩ := kv
      intro st k r hmem hh
      rcases List.mem_cons.1 hmem with heq | htail
      · injection heq with h1 h2
        subst h1
        subst h2
        rw [runCycleAux_cons_trace envs now k r rest st hh]
        obtain ⟨e, he, hc⟩ := sendReport_trace_chat k r.tiktokHandle st (envs k) now
        exact ⟨e, List.mem_append_left _ he, hc⟩
      · by_cases hskip : ki.tiktokHandle.isEmpty
        · rw [runCycleAux_cons_skip envs now kc ki rest st hskip]
          exact ih st k r htail hh
        · rw [runCycleAux_cons_trace envs now kc ki rest st hskip]
          obtain ⟨e, he, hc⟩ := ih _ k r htail hh
          exact ⟨e, List.mem_append_right _ he, hc⟩

lemma cycle_trace_fallback (envs : List Char → SendEnv) (now : List Char)
    (k : List Char) (hf : (envs k).fetch = .err) :
    ∀ (l : List (List Char × SubRec)) (st : Subs × FileState) (r : SubRec),
      (k, r) ∈ l → ¬r.tiktokHandle.isEmpty →
      TraceEvt.fallback k fallbackText (envs k).fallbackOk ∈ (runCycleAux envs now l st).2 := by
  intro l
  induction l with
  | nil =>
      intro st r hmem _
      simp at hmem
  | cons kv rest ih =>
      obtain ⟨kc, ki⟩ := kv
      intro st r hmem hh
      rcases List.mem_cons.1 hmem with heq | htail
      · injection heq with h1 h2
        subst h1
        subst h2
        rw [runCycleAux_cons_trace envs now k r rest st hh,
          sendReport_err k r.tiktokHandle st (envs k) now hf]
        exact List.mem_append_left _ (by simp)
      · by_cases hskip : ki.tiktokHandle.isEmpty
        · rw [runCycleAux_cons_skip envs now kc ki rest st hskip]
          exact ih st r htail hh
        · rw [runCycleAux_cons_trace envs now kc ki rest st hskip]
          exact List.mem_append_right _ (ih _ r htail hh)

lemma cycle_preserves_err_key (envs : List Char → SendEnv) (now k : List Char)
    (hf : (envs k).fetch = .err) (hq : ∀ c, (envs c).remDuringSend = none) :
    ∀ (l : List (List Char × SubRec)) (st : Subs × FileState),
      objGet (runCycleAux envs now l st).1.1 k = objGet st.1 k := by
  intro l
  induction l with
  | nil => intro st; rfl
  | cons kv rest ih =>
      obtain ⟨kc, ki⟩ := kv
      intro st
      by_cases hskip : ki.tiktokHandle.isEmpty
      · rw [runCycleAux_cons_skip envs now kc ki rest st hskip]
        exact ih st
      · rw [runCycleAux_cons_state envs now kc ki rest st hskip,
          ih (sendReportToChat kc ki.tiktokHandle st (envs kc) now).1]
        by_cases hkc : kc = k
        · subst hkc
          rw [sendReport_err kc ki.tiktokHandle st (envs kc) now hf]
        · exact sendReport_preserves_other kc ki.tiktokHandle k st (envs kc) now (hq kc)
            (fun hx => hkc hx.symm)

/-- C2: in a delivery-cycle pass with no concurrent admin command, an
entry whose fetch fails keeps its record (hence its `lastSentAt`)
unchanged, has the fixed fallback notice sent to its chat (for either
outcome of that best-effort send — its failure is swallowed), and every
entry of the snapshot with a non-empty handle, in particular every
subsequent one, is still processed; the pass is a total function, so no
error crosses the cycle boundary. -/
theorem cycle_fetch_failure (subs : Subs) (file : FileState)
    (envs : List Char → SendEnv) (now k : List Char) (r : SubRec)
    (hmem : (k, r) ∈ subs) (hh : ¬r.tiktokHandle.isEmpty)
    (hfail : (envs k).fetch = .err)
    (hq : ∀ c, (envs c).remDuringSend = none) :
    objGet (runSchedulerCycle (subs, file) envs now).1.1 k = objGet subs k ∧
    TraceEvt.fallback k fallbackText (envs k).fallbackOk ∈
      (runSchedulerCycle (subs, file) envs now).2 ∧
    ∀ k2 r2, (k2, r2) ∈ subs → ¬r2.tiktokHandle.isEmpty →
      ∃ e ∈ (runSchedulerCycle (subs, file) envs now).2, chatOf e = k2 := by
  refine ⟨?_, ?_, ?_⟩
  · exact cycle_preserves_err_key envs now k hfail hq subs (subs, file)
  · exact cycle_trace_fallback envs now k hfail subs (subs, file) r hmem hh
  · intro k2 r2 h2 hh2
    exact cycle_trace_all envs now subs (subs, file) k2 r2 h2 hh2

/-- Two-chat store used to instantiate the cycle theorems. -/
def subsC2 : Subs :=
  [(("1".toList), ⟨("@a".toList), none⟩), (("2".toList), ⟨("@b".toList), none⟩)]

/-- Environment where chat "1" has a failing fetch and everything else
succeeds; no concurrent admin command. -/
def envsC2 : List Char → SendEnv := fun c =>
  ⟨if c = ("1".toList) then .err else .ok dataC4, true, true, none⟩

/-- A concrete timestamp for instantiations. -/
def nowC : List Char := ("2025-06-01T00:00:00.000Z".toList)

/-- Instantiation of `cycle_fetch_failure`: chat "1" fails to fetch, keeps
its record, receives the fallback notice, and chat "2" is still served. -/
theorem cycle_fetch_failure_witness :
    objGet (runSchedulerCycle (subsC2, .stored subsC2) envsC2 nowC).1.1 ("1".toList) =
      objGet subsC2 ("1".toList) ∧
    TraceEvt.fallback ("1".toList) fallbackText (envsC2 ("1".toList)).fallbackOk ∈
      (runSchedulerCycle (subsC2, .stored subsC2) envsC2 nowC).2 ∧
    (∃ e ∈ (runSchedulerCycle (subsC2, .stored subsC2) envsC2 nowC).2,
      chatOf e = ("2".toList)) :=
  ⟨(cycle_fetch_failure subsC2 (.stored subsC2) envsC2 nowC ("1".toList)
      ⟨("@a".toList), none⟩ (by decide) (by decide) rfl (fun _ => rfl)).1,
   (cycle_fetch_failure subsC2 (.stored subsC2) envsC2 nowC ("1".toList)
      ⟨("@a".toList), none⟩ (by decide) (by decide) rfl (fun _ => rfl)).2.1,
   (cycle_fetch_failure subsC2 (.stored subsC2) envsC2 nowC ("1".toList)
      ⟨("@a".toList), none⟩ (by decide) (by decide) rfl (fun _ => rfl)).2.2
      ("2".toList) ⟨("@b".toList), none⟩ (by decide) (by decide)⟩

/-- Two-chat store used to instantiate the mid-cycle-removal theorems. -/
def subsC1 : Subs :=
  [(("111".toList), ⟨("@a".toList), none⟩), (("222".toList), ⟨("@b".toList), none⟩)]

/-- Environment where the entry for chat "111" has a successful fetch and
send, but an admin `/rem 111` lands during the send `await`. -/
def envsC1 : List Char → SendEnv := fun c =>
  if c = ("111".toList) then ⟨.ok dataC4, true, true, some ("111".toList)⟩
  else ⟨.ok dataC4, true, true, none⟩

/-- C1 counterexample: chat "111" is subscribed, its fetch and report send
succeed, and its record is removed between the send and the `lastSentAt`
assignment; the entry then **does** trigger the fallback notice to that
chat (the assignment throws a `TypeError`, and the entry's `catch` answers
every error with the fixed fallback message), contradicting the claim that
no fallback notice is triggered by recording `lastSentAt`. -/
theorem marksent_removed_counterexample :
    TraceEvt.fallback ("111".toList) fallbackText true ∈
      (sendReportToChat ("111".toList) ("@a".toList) (subsC1, .stored subsC1)
        (envsC1 ("111".toList)) nowC).2 := by
  decide

/-- C1 as amended: when the record for `chatId` existed but an admin `/rem`
for it lands between the successful report send and the recording of
`lastSentAt`, the assignment throws inside the entry's `try`; the error is
caught within the entry (the entry returns normally, so nothing propagates
past it), no timestamp is recorded — the state is exactly the
post-removal state persisted by the `/rem` — but the fixed fallback
notice IS sent (best-effort) to the removed chat; and the cycle still
processes every entry of the snapshot with a non-empty handle. -/
theorem marksent_removed_behavior (subs : Subs) (file : FileState)
    (envs : List Char → SendEnv) (now chatId : List Char) (d : RawAnalytics)
    (st : Subs × FileState)
    (hf : (envs chatId).fetch = .ok d) (hs : (envs chatId).sendOk = true)
    (hr : (envs chatId).remDuringSend = some chatId)
    (hmem : (objGet st.1 chatId).isSome) :
    (∀ tiktokHandle,
      sendReportToChat chatId tiktokHandle st (envs chatId) now =
        ((objDelete st.1 chatId, .stored (objDelete st.1 chatId)),
         [.report chatId (formatReportMessage d) true,
          .fallback chatId fallbackText (envs chatId).fallbackOk])) ∧
    ∀ k2 r2, (k2, r2) ∈ subs → ¬r2.tiktokHandle.isEmpty →
      ∃ e ∈ (runSchedulerCycle (subs, file) envs now).2, chatOf e = k2 := by
  constructor
  · have hmid : midState st ((envs chatId).remDuringSend) =
        (objDelete st.1 chatId, .stored (objDelete st.1 chatId)) := by
      rw [hr]
      simp [midState, remHandler, isAdmin, hmem]
    have hnone : (objGet (midState st ((envs chatId).remDuringSend)).1 chatId).isSome = false := by
      rw [hmid]
      simp [objGet_objDelete_self]
    intro tiktokHandle
    simp only [sendReportToChat, hf, hs, if_true, hnone, Bool.false_eq_true, if_false, hmid]
    simp [objGet_objDelete_self]
  · intro k2 r2 h2 hh2
    exact cycle_trace_all envs now subs (subs, file) k2 r2 h2 hh2

/-- Instantiation of `marksent_removed_behavior` at the concrete store and
environment of the counterexample, plus continuation to chat "222". -/
theorem marksent_removed_behavior_witness :
    (sendReportToChat ("111".toList) ("@a".toList) (subsC1, .stored subsC1)
        (envsC1 ("111".toList)) nowC =
      ((objDelete subsC1 ("111".toList), .stored (objDelete subsC1 ("111".toList))),
       [.report ("111".toList) (formatReportMessage dataC4) true,
        .fallback ("111".toList) fallbackText (envsC1 ("111".toList)).fallbackOk])) ∧
    (∃ e ∈ (runSchedulerCycle (subsC1, .stored subsC1) envsC1 nowC).2,
      chatOf e = ("222".toList)) :=
  ⟨(marksent_removed_behavior subsC1 (.stored subsC1) envsC1 nowC ("111".toList) dataC4
      (subsC1, .stored subsC1) rfl rfl rfl (by decide)).1 ("@a".toList),
   (marksent_removed_behavior subsC1 (.stored subsC1) envsC1 nowC ("111".toList) dataC4
      (subsC1, .stored subsC1) rfl rfl rfl (by decide)).2
      ("222".toList) ⟨("@b".toList), none⟩ (by decide) (by decide)⟩

/-! ## Persist-after-mutation (C8) -/

/-- The operations that touch the store: the four command handlers and one
delivery-cycle entry. -/
inductive Op where
  | addCmd (fromId msgChatId link : List Char) (chatIdArg : Option (List Char))
  | remCmd (fromId chatId : List Char)
  | listCmd (fromId : List Char)
  | startCmd
  | sendReport (chatId tiktokHandle : List Char) (env : SendEnv) (now : List Char)

/-- The state effect of one operation (replies and traces dropped). -/
def applyOp (adminId : Option (List Char)) (op : Op) (st : Subs × FileState) :
    Subs × FileState :=
  match op with
  | .addCmd f m l c =>
      ((addHandler adminId f m l c st.1 st.2).subs, (addHandler adminId f m l c st.1 st.2).file)
  | .remCmd f c =>
      ((remHandler adminId f c st.1 st.2).subs, (remHandler adminId f c st.1 st.2).file)
  | .listCmd f =>
      ((listHandler adminId f st.1 st.2).subs, (listHandler adminId f st.1 st.2).file)
  | .startCmd => ((startHandler st.1 st.2).subs, (startHandler st.1 st.2).file)
  | .sendReport c h env now => (sendReportToChat c h st env now).1

lemma midState_sync (st : Subs × FileState) (rd : Option (List Char))
    (h : st.2 = .stored st.1) :
    (midState st rd).2 = .stored (midState st rd).1 := by
  cases rd with
  | none => exact h
  | some c =>
      by_cases hm : (objGet st.1 c).isSome
      · simp [midState, remHandler, isAdmin, hm]
      · simp only [midState, remHandler, isAdmin, hm]
        simpa using h

/-- C8: every mutation persists the full mapping before returning — an
authorized `add` and an authorized `rem` of an existing record leave the
file holding exactly the serialization of the new full mapping, and a
fully successful delivery-cycle entry (fetch ok, send ok, record still
present) leaves the file holding the serialization of the mapping with the
updated `lastSentAt`; moreover every operation preserves the invariant
"file = serialization of the entire current mapping" (no partial flush
exists in the model: a write always stores the whole mapping). -/
theorem persist_after_mutation (adminId : Option (List Char)) (subs : Subs)
    (file : FileState) :
    (∀ f m l c, isAdmin adminId f = true →
      (addHandler adminId f m l c subs file).file =
        .stored (addHandler adminId f m l c subs file).subs) ∧
    (∀ f c, isAdmin adminId f = true → (objGet subs c).isSome →
      (remHandler adminId f c subs file).file =
        .stored (remHandler adminId f c subs file).subs) ∧
    (∀ cid hdl env now d, env.fetch = .ok d → env.sendOk = true →
      env.remDuringSend = none → (objGet subs cid).isSome →
      (sendReportToChat cid hdl (subs, file) env now).1 =
        (markSent subs cid now, .stored (markSent subs cid now))) ∧
    (∀ op, file = .stored subs →
      (applyOp adminId op (subs, file)).2 = .stored (applyOp adminId op (subs, file)).1) := by
  refine ⟨?_, ?_, ?_, ?_⟩
  · intro f m l c hA
    simp [addHandler, hA]
  · intro f c hA hm
    simp [remHandler, hA, hm]
  · intro cid hdl env now d hf hs hrd hm
    simp [sendReportToChat, hf, hs, hrd, midState, hm]
  · intro op hsync
    cases op with
    | addCmd f m l c =>
        by_cases hA : isAdmin adminId f = true
        · simp [applyOp, addHandler, hA]
        · have hA2 : isAdmin adminId f = false := by
            simpa using hA
          simp [applyOp, addHandler, hA2]
          exact hsync
    | remCmd f c =>
        by_cases hA : isAdmin adminId f = true
        · by_cases hm : (objGet subs c).isSome
          · simp [applyOp, remHandler, hA, hm]
          · simp [applyOp, remHandler, hA, hm]
            exact hsync
        · have hA2 : isAdmin adminId f = false := by
            simpa using hA
          simp [applyOp, remHandler, hA2]
          exact hsync
    | listCmd f =>
        simp only [applyOp, listHandler]
        split_ifs <;> exact hsync
    | startCmd => exact hsync
    | sendReport c h env now =>
        cases hf : env.fetch with
        | err =>
            simp only [applyOp, sendReport_err c h (subs, file) env now hf]
            exact hsync
        | ok d =>
            by_cases hs : env.sendOk
            · by_cases hm : (objGet (midState (subs, file) env.remDuringSend).1 c).isSome
              · simp [applyOp, sendReportToChat, hf, hs, hm]
              · simp only [applyOp, sendReportToChat, hf, hs, if_true, hm,
                  Bool.false_eq_true, if_false]
                exact midState_sync (subs, file) env.remDuringSend hsync
            · have hs2 : env.sendOk = false := by
                simpa using hs
              simp only [applyOp, sendReportToChat, hf, hs2, Bool.false_eq_true, if_false]
              exact midState_sync (subs, file) env.remDuringSend hsync

/-- A concrete mutation for instantiating `persist_after_mutation`. -/
def opC8 : Op := .addCmd ("9".toList) ("9".toList) ("@x".toList) (some ("7".toList))

/-- Instantiation of `persist_after_mutation` at concrete operations on a
concrete store. -/
theorem persist_after_mutation_witness :
    ((addHandler none ("9".toList) ("9".toList) ("@x".toList) (some ("7".toList))
        subsC2 (.stored subsC2)).file =
      .stored (addHandler none ("9".toList) ("9".toList) ("@x".toList) (some ("7".toList))
        subsC2 (.stored subsC2)).subs) ∧
    ((remHandler none ("9".toList) ("1".toList) subsC2 (.stored subsC2)).file =
      .stored (remHandler none ("9".toList) ("1".toList) subsC2 (.stored subsC2)).subs) ∧
    ((sendReportToChat ("1".toList) ("@a".toList) (subsC2, .stored subsC2)
        ⟨.ok dataC4, true, true, none⟩ nowC).1 =
      (markSent subsC2 ("1".toList) nowC, .stored (markSent subsC2 ("1".toList) nowC))) ∧
    ((applyOp none opC8 (subsC2, .stored subsC2)).2 =
      .stored (applyOp none opC8 (subsC2, .stored subsC2)).1) :=
  ⟨(persist_after_mutation none subsC2 (.stored subsC2)).1 ("9".toList) ("9".toList)
      ("@x".toList) (some ("7".toList)) rfl,
   (persist_after_mutation none subsC2 (.stored subsC2)).2.1 ("9".toList) ("1".toList)
      rfl (by decide),
   (persist_after_mutation none subsC2 (.stored subsC2)).2.2.1 ("1".toList) ("@a".toList)
      ⟨.ok dataC4, true, true, none⟩ nowC dataC4 rfl rfl rfl (by decide),
   (persist_after_mutation none subsC2 (.stored subsC2)).2.2.2 opC8 rfl⟩

end TikTokBot
